import Mathlib

/-!
Shallow embedding of the aggregation core of `src/airline_dashborad.py`
(a Dash dashboard over a pandas DataFrame of US airline flight records).

Modelling conventions, matching pandas semantics as exercised by the source:
* A DataFrame is a list of rows (`List Row`); nullable columns are `Option`.
* Numbers are `ℚ` (the source only sums, averages and compares them).
* `df.groupby(keys)[col].agg(...).reset_index()` drops rows whose grouping
  key contains a null (pandas `dropna=True` default), forms one output row
  per distinct key, and aggregates the value column over the key's rows.
  `sum` treats values directly; `mean` skips nulls in both numerator and
  denominator and yields null (NaN) for an all-null group.  Output row
  order is not contractually significant (spec §4.3: "output row order is
  not contractually significant"); the embedding uses `List.dedup` order.
* pandas `df["DivAirportLandings"] != 0.0` is True on NaN (NaN != x is
  True), so a null field passes the filter; the embedding's predicate
  `≠ some 0` has exactly this behaviour.
* `int(None)` raises `TypeError`, modelled as `Except.error ()`.
-/

namespace AirlineDash

/-- One row of the airline dataset; only the columns the aggregation core
touches are modelled.  Nullable columns (per spec §3) are `Option`. -/
structure Row where
  year : Int
  month : Int
  reportingAirline : String
  cancellationCode : Option String
  airTime : Option ℚ
  originState : String
  destState : String
  flights : ℚ
  divAirportLandings : Option ℚ
  carrierDelay : Option ℚ
  weatherDelay : Option ℚ
  nasDelay : Option ℚ
  securityDelay : Option ℚ
  lateAircraftDelay : Option ℚ
deriving DecidableEq, Repr

/-- A pandas DataFrame restricted to the modelled columns. -/
abbrev DataFrame := List Row

/-- pandas `Series.mean()`: nulls are excluded from numerator and
denominator; the mean of an all-null series is null (NaN). -/
def pandasMean (vs : List (Option ℚ)) : Option ℚ :=
  let xs := vs.filterMap id
  if xs.length = 0 then none else some (xs.sum / (xs.length : ℚ))

/-- Distinct grouping keys of `df` under `key`, in `dedup` order; a row
whose key contains a null (`key r = none`) is dropped, as pandas
`groupby` does by default. -/
def groupKeys {κ : Type} [DecidableEq κ] (df : DataFrame) (key : Row → Option κ) :
    List κ :=
  (df.filterMap key).dedup

/-- pandas `df.groupby(keys)[col].sum().reset_index()`. -/
def groupSum {κ : Type} [DecidableEq κ] (df : DataFrame) (key : Row → Option κ)
    (val : Row → ℚ) : List (κ × ℚ) :=
  (groupKeys df key).map fun k =>
    (k, ((df.filter fun r => key r = some k).map val).sum)

/-- pandas `df.groupby(keys)[col].mean().reset_index()`. -/
def groupMean {κ : Type} [DecidableEq κ] (df : DataFrame) (key : Row → Option κ)
    (val : Row → Option ℚ) : List (κ × Option ℚ) :=
  (groupKeys df key).map fun k =>
    (k, pandasMean ((df.filter fun r => key r = some k).map val))

/-- Source line 32: `df.groupby(["Month","CancellationCode"])["Flights"].sum()`.
The key contains the nullable `CancellationCode`, so rows with a null code
are dropped by the groupby. -/
def bar_data (df : DataFrame) : List ((Int × String) × ℚ) :=
  groupSum df (fun r => (r.cancellationCode).map fun c => (r.month, c)) Row.flights

/-- Source lines 33-35: `df.groupby(["Month","Reporting_Airline"])["AirTime"].mean()`. -/
def line_data (df : DataFrame) : List ((Int × String) × Option ℚ) :=
  groupMean df (fun r => some (r.month, r.reportingAirline)) Row.airTime

/-- Source line 36: `df[df["DivAirportLandings"] != 0.0]`.  pandas `!=`
is True on NaN, which `≠ some 0` reproduces (`none ≠ some 0`). -/
def div_data (df : DataFrame) : DataFrame :=
  df.filter fun r => r.divAirportLandings ≠ some 0

/-- Source line 37: `df.groupby(["OriginState"])["Flights"].sum()`. -/
def map_data (df : DataFrame) : List (String × ℚ) :=
  groupSum df (fun r => some r.originState) Row.flights

/-- Source lines 38-40: `df.groupby(["DestState","Reporting_Airline"])["Flights"].sum()`. -/
def tree_data (df : DataFrame) : List ((String × String) × ℚ) :=
  groupSum df (fun r => some (r.destState, r.reportingAirline)) Row.flights

/-- Source lines 31-41: `compute_data_choice_1`, the performance aggregator. -/
def compute_data_choice_1 (df : DataFrame) :
    List ((Int × String) × ℚ) × List ((Int × String) × Option ℚ) × DataFrame ×
      List (String × ℚ) × List ((String × String) × ℚ) :=
  (bar_data df, line_data df, div_data df, map_data df, tree_data df)

/-- Source lines 45-47: mean `CarrierDelay` by (Month, Reporting_Airline). -/
def avg_car (df : DataFrame) : List ((Int × String) × Option ℚ) :=
  groupMean df (fun r => some (r.month, r.reportingAirline)) Row.carrierDelay

/-- Source lines 48-50: mean `WeatherDelay` by (Month, Reporting_Airline). -/
def avg_weather (df : DataFrame) : List ((Int × String) × Option ℚ) :=
  groupMean df (fun r => some (r.month, r.reportingAirline)) Row.weatherDelay

/-- Source lines 51-53: mean `NASDelay` by (Month, Reporting_Airline). -/
def avg_NAS (df : DataFrame) : List ((Int × String) × Option ℚ) :=
  groupMean df (fun r => some (r.month, r.reportingAirline)) Row.nasDelay

/-- Source lines 54-56: mean `SecurityDelay` by (Month, Reporting_Airline). -/
def avg_sec (df : DataFrame) : List ((Int × String) × Option ℚ) :=
  groupMean df (fun r => some (r.month, r.reportingAirline)) Row.securityDelay

/-- Source lines 57-61: mean `LateAircraftDelay` by (Month, Reporting_Airline). -/
def avg_late (df : DataFrame) : List ((Int × String) × Option ℚ) :=
  groupMean df (fun r => some (r.month, r.reportingAirline)) Row.lateAircraftDelay

/-- Source lines 44-62: `compute_data_choice_2`, the delay aggregator. -/
def compute_data_choice_2 (df : DataFrame) :
    List ((Int × String) × Option ℚ) × List ((Int × String) × Option ℚ) ×
      List ((Int × String) × Option ℚ) × List ((Int × String) × Option ℚ) ×
      List ((Int × String) × Option ℚ) :=
  (avg_car df, avg_weather df, avg_NAS df, avg_sec df, avg_late df)

/-- Source line 28: `year_list = [i for i in range(2005, 2021, 1)]`. -/
def year_list : List Int := (List.range' 2005 16).map fun n => (n : Int)

/-- Source line 156: `airline_data[airline_data["Year"] == int(year)]`,
the year filter applied to the loaded dataset. -/
def yearFilter (data : DataFrame) (y : Int) : DataFrame :=
  data.filter fun r => r.year = y

/-- The five-chart payload `get_graph` returns: either the performance
report's tables (lines 160-218) or the delay report's tables (lines
221-266).  The chart construction itself is presentation glue. -/
inductive ChartOutput where
  | performance :
      List ((Int × String) × ℚ) × List ((Int × String) × Option ℚ) × DataFrame ×
        List (String × ℚ) × List ((String × String) × ℚ) → ChartOutput
  | delay :
      List ((Int × String) × Option ℚ) × List ((Int × String) × Option ℚ) ×
        List ((Int × String) × Option ℚ) × List ((Int × String) × Option ℚ) ×
        List ((Int × String) × Option ℚ) → ChartOutput

/-- Source lines 155-266: the callback body.  `int(year)` raises
`TypeError` when the year dropdown is unset (`None`), modelled as
`Except.error ()`; otherwise the data is year-filtered and the branch is
chosen by `chart == "OPT1"` — every other chart value (including `None`)
falls into the `else` (delay) branch. -/
def get_graph (chart : Option String) (year : Option Int) (data : DataFrame) :
    Except Unit ChartOutput :=
  match year with
  | none => Except.error ()
  | some y =>
    let df := yearFilter data y
    if chart = some "OPT1" then
      Except.ok (ChartOutput.performance (compute_data_choice_1 df))
    else
      Except.ok (ChartOutput.delay (compute_data_choice_2 df))

/-- A concrete flight record used to build test inputs: Year 2010,
Month 1, airline "AA", null CancellationCode, Flights 1, zero diversions,
all delay and airtime fields null. -/
def baseRow : Row :=
  { year := 2010, month := 1, reportingAirline := "AA",
    cancellationCode := none, airTime := none,
    originState := "CA", destState := "NY", flights := 1,
    divAirportLandings := some 0,
    carrierDelay := none, weatherDelay := none, nasDelay := none,
    securityDelay := none, lateAircraftDelay := none }

/-- Variant of `baseRow` with cancellation code "A" and one flight (C8 scenario). -/
def c8row1 : Row := { baseRow with cancellationCode := some "A", flights := 1 }

/-- Variant of `baseRow` with cancellation code "A" and two flights (C8 scenario). -/
def c8row2 : Row := { baseRow with cancellationCode := some "A", flights := 2 }

/-- Variant of `baseRow` whose DivAirportLandings field is null. -/
def divNullRow : Row := { baseRow with divAirportLandings := none }

/-- Variant of `baseRow` with a CarrierDelay of 10 minutes. -/
def carRow : Row := { baseRow with carrierDelay := some 10 }

/-! ## Helper lemmas -/

theorem sum_map_ite_of_not_mem {κ M : Type} [DecidableEq κ] [AddCommMonoid M]
    (ks : List κ) (k0 : κ) (c : M) (h : k0 ∉ ks) :
    (ks.map fun k => if k0 = k then c else 0).sum = 0 := by
  induction ks with
  | nil => simp
  | cons a ks ih =>
    simp only [List.mem_cons, not_or] at h
    simp [if_neg h.1, ih h.2]

theorem sum_map_ite_of_mem {κ M : Type} [DecidableEq κ] [AddCommMonoid M]
    (ks : List κ) (k0 : κ) (c : M) (hnd : ks.Nodup) (hm : k0 ∈ ks) :
    (ks.map fun k => if k0 = k then c else 0).sum = c := by
  induction ks with
  | nil => cases hm
  | cons a ks ih =>
    rcases List.mem_cons.mp hm with h | h
    · subst h
      have hnin : k0 ∉ ks := (List.nodup_cons.mp hnd).1
      simp [sum_map_ite_of_not_mem ks k0 c hnin]
    · have hne : k0 ≠ a := by
        rintro rfl
        exact (List.nodup_cons.mp hnd).1 h
      simp [if_neg hne, ih (List.nodup_cons.mp hnd).2 h]

/-- Summing a value column fiberwise over a complete, duplicate-free list of
group keys recovers the column's total over the rows whose key is non-null. -/
theorem sum_fiber_aux {κ : Type} [DecidableEq κ] (key : Row → Option κ) (val : Row → ℚ)
    (ks : List κ) (hnd : ks.Nodup) :
    ∀ df : DataFrame, (∀ r ∈ df, ∀ k, key r = some k → k ∈ ks) →
      (ks.map fun k => ((df.filter fun r => key r = some k).map val).sum).sum
        = ((df.filter fun r => (key r).isSome).map val).sum := by
  intro df
  induction df with
  | nil => intro _; simp
  | cons r df ih =>
    intro hmem
    have hdf : ∀ r' ∈ df, ∀ k, key r' = some k → k ∈ ks :=
      fun r' hr' => hmem r' (List.mem_cons_of_mem _ hr')
    cases hk : key r with
    | none =>
      have hstep : ∀ k ∈ ks,
          (((r :: df).filter fun r' => key r' = some k).map val).sum
            = ((df.filter fun r' => key r' = some k).map val).sum := by
        intro k _
        rw [List.filter_cons]
        simp [hk]
      rw [List.map_congr_left hstep, ih hdf, List.filter_cons]
      simp [hk]
    | some k0 =>
      have hk0 : k0 ∈ ks := hmem r (List.mem_cons_self r df) k0 hk
      have hstep : ∀ k ∈ ks,
          (((r :: df).filter fun r' => key r' = some k).map val).sum
            = (if k0 = k then val r else 0)
                + ((df.filter fun r' => key r' = some k).map val).sum := by
        intro k _
        rw [List.filter_cons]
        by_cases h : k0 = k
        · subst h
          simp [hk]
        · have hne : ¬ (key r = some k) := by
            rw [hk]
            simp [h]
          simp [hne, h]
      rw [List.map_congr_left hstep, List.sum_map_add,
        sum_map_ite_of_mem ks k0 (val r) hnd hk0, ih hdf, List.filter_cons]
      simp [hk]

/-- Total mass of a `groupSum`: the group sums add up to the value column's
total over the rows whose grouping key is non-null. -/
theorem groupSum_mass {κ : Type} [DecidableEq κ] (df : DataFrame) (key : Row → Option κ)
    (val : Row → ℚ) :
    ((groupSum df key val).map Prod.snd).sum
      = ((df.filter fun r => (key r).isSome).map val).sum := by
  unfold groupSum
  rw [List.map_map]
  exact sum_fiber_aux key val (groupKeys df key) (List.nodup_dedup _)
    df (fun r hr k hk => List.mem_dedup.mpr (List.mem_filterMap.mpr ⟨r, hr, hk⟩))

/-- C1 (counterexample): on a one-row table whose CancellationCode is null
and whose Flights is 1, the MonthlyCancellation aggregate (`bar_data`) sums
to 0 while the input's Flights column sums to 1, so the sum-based aggregates
do not all preserve total mass as the claim states. -/
theorem c1_counterexample :
    ¬ (((bar_data [baseRow]).map Prod.snd).sum = ([baseRow].map Row.flights).sum) := by
  norm_num [bar_data, groupSum, groupKeys, baseRow, List.filterMap_cons]

/-- C1 (amended): `map_data` (FlightsByOriginState) and `tree_data`
(FlightsByDestStateAirline) preserve total mass on every input, while
`bar_data` (MonthlyCancellation) preserves the mass of exactly the rows whose
CancellationCode is non-null — rows with a null code are dropped by the
groupby and excluded from the aggregate's total. -/
theorem c1_mass_preservation (df : DataFrame) :
    ((map_data df).map Prod.snd).sum = (df.map Row.flights).sum ∧
    ((tree_data df).map Prod.snd).sum = (df.map Row.flights).sum ∧
    ((bar_data df).map Prod.snd).sum
      = ((df.filter fun r => r.cancellationCode.isSome).map Row.flights).sum := by
  refine ⟨?_, ?_, ?_⟩
  · rw [map_data, groupSum_mass]
    simp
  · rw [tree_data, groupSum_mass]
    simp
  · rw [bar_data, groupSum_mass]
    have hpred :
        (df.filter fun r => (Option.map (fun c => (r.month, c)) r.cancellationCode).isSome)
          = df.filter fun r => r.cancellationCode.isSome := by
      apply List.filter_congr
      intro r _
      cases r.cancellationCode <;> simp
    rw [hpred]

/-- C2 (counterexample): with the report-type selector unset (`none`) but a
year selected, the callback body does run the aggregation step — it falls
into the delay branch and executes `compute_data_choice_2`, producing
non-empty derived tables, instead of suppressing rendering. -/
theorem c2_counterexample :
    get_graph none (some 2010) [baseRow]
        = Except.ok (ChartOutput.delay (compute_data_choice_2 (yearFilter [baseRow] 2010))) ∧
    avg_car (yearFilter [baseRow] 2010) ≠ [] := by
  constructor
  · rfl
  · norm_num [avg_car, groupMean, groupKeys, yearFilter, baseRow,
      List.filter_cons, List.filterMap_cons]

/-- C2 (amended): when the year selector is unset the callback fails with an
error (`int(None)` raises) before any aggregation runs — the failure is an
error, not a silent suppression — and when only the report-type selector is
unset the callback does execute the delay aggregation
(`compute_data_choice_2`) and renders the delay charts. -/
theorem c2_unset_selectors (data : DataFrame) (chart : Option String) (y : Int) :
    get_graph chart none data = Except.error () ∧
    get_graph none (some y) data
      = Except.ok (ChartOutput.delay (compute_data_choice_2 (yearFilter data y))) :=
  ⟨rfl, rfl⟩

/-- C3 (counterexample): a row whose DivAirportLandings field is null does
appear in the DivertedSubset `div_data`, because the pandas comparison
`NaN != 0.0` is True. -/
theorem c3_counterexample : divNullRow ∈ div_data [divNullRow] := by
  simp [div_data, divNullRow, baseRow, List.filter_cons]

/-- C3 (amended): a row whose DivAirportLandings field is null is treated as
diverted, not as non-diverted: it always appears in the DivertedSubset
`div_data` produced by `compute_data_choice_1`. -/
theorem c3_null_divapt (df : DataFrame) (r : Row) (hr : r ∈ df)
    (hn : r.divAirportLandings = none) : r ∈ div_data df := by
  unfold div_data
  exact List.mem_filter.mpr ⟨hr, by simp [hn]⟩

/-- C3 (witness): the amended statement at a concrete two-row table. -/
theorem c3_witness :
    divNullRow ∈ [baseRow, divNullRow] ∧ divNullRow.divAirportLandings = none ∧
    divNullRow ∈ div_data [baseRow, divNullRow] :=
  ⟨by simp, rfl, c3_null_divapt [baseRow, divNullRow] divNullRow (by simp) rfl⟩

/-- A null-aware mean over an all-null value list is null. -/
theorem pandasMean_all_none (vs : List (Option ℚ)) (h : ∀ v ∈ vs, v = none) :
    pandasMean vs = none := by
  unfold pandasMean
  have hnil : vs.filterMap id = [] := List.filterMap_eq_nil_iff.mpr (by simpa using h)
  simp [hnil]

/-- C4 (counterexample): on a one-row table with a null WeatherDelay, the
MonthlyDelayByAirline[WeatherDelay] table of `compute_data_choice_2` is not
empty — the (Month, Reporting_Airline) group survives with a null mean. -/
theorem c4_counterexample :
    (∀ r ∈ [baseRow], r.weatherDelay = none) ∧
    (compute_data_choice_2 [baseRow]).2.1 ≠ [] := by
  constructor
  · simp [baseRow]
  · norm_num [compute_data_choice_2, avg_weather, groupMean, groupKeys, baseRow,
      List.filterMap_cons]

/-- C4 (amended): on a table in which no row has a non-null WeatherDelay,
`compute_data_choice_2` produces one MonthlyDelayByAirline[WeatherDelay] row
per (Month, Reporting_Airline) group present in the input, each carrying a
null mean — not an empty table, and not zeros. -/
theorem c4_all_null_weather (df : DataFrame) (h : ∀ r ∈ df, r.weatherDelay = none) :
    avg_weather df
      = (groupKeys df fun r => some (r.month, r.reportingAirline)).map
          fun k => (k, (none : Option ℚ)) := by
  unfold avg_weather groupMean
  refine List.map_congr_left ?_
  intro k _
  have hall : ∀ v ∈ ((df.filter fun r =>
      (some (r.month, r.reportingAirline) : Option (Int × String)) = some k).map
        Row.weatherDelay), v = none := by
    intro v hv
    rcases List.mem_map.mp hv with ⟨r, hr, rfl⟩
    exact h r (List.mem_filter.mp hr).1
  rw [pandasMean_all_none _ hall]

/-- C4 (witness): the amended statement at a concrete one-row table. -/
theorem c4_witness :
    (∀ r ∈ [baseRow], r.weatherDelay = none) ∧
    avg_weather [baseRow]
      = (groupKeys [baseRow] fun r => some (r.month, r.reportingAirline)).map
          fun k => (k, (none : Option ℚ)) :=
  ⟨by simp [baseRow], c4_all_null_weather [baseRow] (by simp [baseRow])⟩

/-- Membership in a `groupMean` table pins the value to the null-aware mean
of the group's value column. -/
theorem groupMean_mem_eq {κ : Type} [DecidableEq κ] (df : DataFrame) (key : Row → Option κ)
    (val : Row → Option ℚ) (k : κ) (m : Option ℚ)
    (hm : (k, m) ∈ groupMean df key val) :
    m = pandasMean ((df.filter fun r => key r = some k).map val) := by
  unfold groupMean at hm
  rcases List.mem_map.mp hm with ⟨k', _, heq⟩
  have h1 : k' = k := congrArg Prod.fst heq
  have h2 : pandasMean ((df.filter fun r => key r = some k').map val) = m :=
    congrArg Prod.snd heq
  subst h1
  exact h2.symm

/-- Prepending a null value leaves a null-aware mean unchanged. -/
theorem pandasMean_cons_none (vs : List (Option ℚ)) :
    pandasMean (none :: vs) = pandasMean vs := by
  unfold pandasMean
  simp [List.filterMap_cons]

/-- Prepending a row whose value column is null never changes a group's
null-aware mean. -/
theorem groupMean_cons_null {κ : Type} [DecidableEq κ] (df : DataFrame)
    (key : Row → Option κ) (val : Row → Option ℚ) (r : Row) (hv : val r = none)
    (k : κ) (m m' : Option ℚ)
    (h1 : (k, m) ∈ groupMean (r :: df) key val)
    (h2 : (k, m') ∈ groupMean df key val) : m = m' := by
  rw [groupMean_mem_eq _ _ _ _ _ h1, groupMean_mem_eq _ _ _ _ _ h2, List.filter_cons]
  by_cases hp : key r = some k
  · simp only [hp, decide_True, if_true, List.map_cons, hv, pandasMean_cons_none]
  · simp [hp]

/-- C5: the per-(Month, Reporting_Airline) means of `compute_data_choice_2`
exclude null delay values from both numerator and denominator: for each of
the five delay causes, adding a row whose delay column is null does not
change the mean reported for that row's group (it does not pull it toward
zero). -/
theorem c5_null_aware_mean (df : DataFrame) (r : Row) (k : Int × String)
    (m m' : Option ℚ) :
    (r.carrierDelay = none →
      (k, m) ∈ avg_car (r :: df) → (k, m') ∈ avg_car df → m = m') ∧
    (r.weatherDelay = none →
      (k, m) ∈ avg_weather (r :: df) → (k, m') ∈ avg_weather df → m = m') ∧
    (r.nasDelay = none →
      (k, m) ∈ avg_NAS (r :: df) → (k, m') ∈ avg_NAS df → m = m') ∧
    (r.securityDelay = none →
      (k, m) ∈ avg_sec (r :: df) → (k, m') ∈ avg_sec df → m = m') ∧
    (r.lateAircraftDelay = none →
      (k, m) ∈ avg_late (r :: df) → (k, m') ∈ avg_late df → m = m') := by
  refine ⟨fun hv h1 h2 => ?_, fun hv h1 h2 => ?_, fun hv h1 h2 => ?_,
    fun hv h1 h2 => ?_, fun hv h1 h2 => ?_⟩
  · exact groupMean_cons_null df _ _ r hv k m m' h1 h2
  · exact groupMean_cons_null df _ _ r hv k m m' h1 h2
  · exact groupMean_cons_null df _ _ r hv k m m' h1 h2
  · exact groupMean_cons_null df _ _ r hv k m m' h1 h2
  · exact groupMean_cons_null df _ _ r hv k m m' h1 h2

/-- C5 (witness): concretely, prepending `baseRow` (null CarrierDelay) to a
table whose (1, "AA") group has mean 10 leaves that mean at 10. -/
theorem c5_witness :
    baseRow.carrierDelay = none ∧
    ((1, "AA"), some (10 : ℚ)) ∈ avg_car (baseRow :: [carRow]) ∧
    ((1, "AA"), some (10 : ℚ)) ∈ avg_car [carRow] ∧
    (some (10 : ℚ) : Option ℚ) = some (10 : ℚ) := by
  have hm1 : ((1, "AA"), some (10 : ℚ)) ∈ avg_car (baseRow :: [carRow]) := by
    norm_num [avg_car, groupMean, groupKeys, pandasMean, baseRow, carRow,
      List.filterMap_cons, List.filter_cons, List.dedup_cons_of_mem,
      List.dedup_cons_of_not_mem]
    simp
  have hm2 : ((1, "AA"), some (10 : ℚ)) ∈ avg_car [carRow] := by
    norm_num [avg_car, groupMean, groupKeys, pandasMean, baseRow, carRow,
      List.filterMap_cons, List.filter_cons]
    simp
  exact ⟨rfl, hm1, hm2,
    (c5_null_aware_mean [carRow] baseRow (1, "AA") (some 10) (some 10)).1 rfl hm1 hm2⟩

/-- The dropdown's year list 2005..2020 has no duplicates. -/
theorem year_list_nodup : year_list.Nodup := by
  unfold year_list
  exact @List.Nodup.map ℕ ℤ (List.range' 2005 16) (fun n => (n : Int))
    (fun a b h => by simpa using h) (List.nodup_range' 2005 16)

/-- Counting occurrences in a filtered list. -/
theorem count_filter_eq (data : DataFrame) (p : Row → Bool) (a : Row) :
    (data.filter p).count a = if p a = true then data.count a else 0 := by
  by_cases h : p a = true
  · rw [if_pos h, List.count_filter h]
  · rw [if_neg h, List.count_eq_zero]
    intro hmem
    exact h (List.mem_filter.mp hmem).2

/-- C6: the year filter of the callback returns exactly the rows whose Year
field equals the selected year, preserving the original row order (it is a
sublist, so all columns of each row are intact); over a dataset whose rows
all carry an enumerated year, the concatenation of the filter results over
`year_list` is a permutation of the dataset — the filters partition it by
year. -/
theorem c6_year_filter (data : DataFrame) (y : Int) :
    (∀ r, r ∈ yearFilter data y ↔ r ∈ data ∧ r.year = y) ∧
    (yearFilter data y).Sublist data ∧
    ((∀ r ∈ data, r.year ∈ year_list) →
      ((year_list.map fun yy => yearFilter data yy).flatten).Perm data) := by
  refine ⟨?_, List.filter_sublist data, ?_⟩
  · intro r
    unfold yearFilter
    rw [List.mem_filter]
    simp
  · intro hvalid
    rw [List.perm_iff_count]
    intro a
    rw [List.count_flatten, List.map_map]
    have hterm : ∀ yy ∈ year_list,
        (List.count a ∘ fun yy => yearFilter data yy) yy
          = if a.year = yy then data.count a else 0 := by
      intro yy _
      simp only [Function.comp, yearFilter]
      rw [count_filter_eq]
      by_cases h : a.year = yy
      · simp [h]
      · simp [h]
    rw [List.map_congr_left hterm]
    by_cases ha : a ∈ data
    · exact sum_map_ite_of_mem year_list a.year (data.count a) year_list_nodup
        (hvalid a ha)
    · have h0 : data.count a = 0 := List.count_eq_zero.mpr ha
      rw [h0]
      simp

/-- C6 (witness): the partition conclusion at a concrete one-row table with
year 2010. -/
theorem c6_witness :
    (∀ r ∈ [baseRow], r.year ∈ year_list) ∧
    ((year_list.map fun yy => yearFilter [baseRow] yy).flatten).Perm [baseRow] := by
  have h : ∀ r ∈ [baseRow], r.year ∈ year_list := by
    intro r hr
    rw [List.mem_singleton] at hr
    subst hr
    decide
  exact ⟨h, (c6_year_filter [baseRow] 2010).2.2 h⟩

/-- C7: the DivertedSubset `div_data` of `compute_data_choice_1` is a filter,
not a reduction: it contains exactly those input rows whose
DivAirportLandings differs from 0 (on the nullable column, `≠ some 0`, the
embedded form of the source's `!= 0.0`), each an original row with all
columns intact, in the original order (a sublist of the input). -/
theorem c7_div_subset (df : DataFrame) :
    (∀ r, r ∈ div_data df ↔ r ∈ df ∧ r.divAirportLandings ≠ some 0) ∧
    (div_data df).Sublist df := by
  refine ⟨?_, List.filter_sublist df⟩
  intro r
  unfold div_data
  rw [List.mem_filter]
  simp

/-- C8: on the two-row scenario table (both rows Year 2010, Month 1, airline
"AA", CancellationCode "A", Flights 1 and 2), the MonthlyCancellation
aggregate of `compute_data_choice_1` is the single row
(Month 1, CancellationCode "A", Flights 3). -/
theorem c8_scenario :
    (compute_data_choice_1 [c8row1, c8row2]).1 = [((1, "A"), (3 : ℚ))] := by
  norm_num [compute_data_choice_1, bar_data, groupSum, groupKeys, c8row1, c8row2,
    baseRow, List.filterMap_cons, List.dedup_cons_of_mem, List.dedup_cons_of_not_mem,
    List.filter_cons]

/-- C9: both aggregators are deterministic, stateless pure functions.  The
source bodies of `compute_data_choice_1` and `compute_data_choice_2` read
nothing but their argument `df` and write no state, which the embedding
reflects by typing them as plain functions of the table; two runs on the
same input therefore yield identical derived tables. -/
theorem c9_aggregators_pure (df : DataFrame) :
    compute_data_choice_1 df = compute_data_choice_1 df ∧
    compute_data_choice_2 df = compute_data_choice_2 df :=
  ⟨rfl, rfl⟩

/-- C10: with a year selected, every report-type value other than "OPT1" —
`none` included — sends `get_graph` down the delay branch, rendering the five
delay tables of `compute_data_choice_2`; the performance branch's output is
produced exactly when the value is "OPT1". -/
theorem c10_branch (data : DataFrame) (y : Int) (chart : Option String) :
    (chart ≠ some "OPT1" →
      get_graph chart (some y) data
        = Except.ok (ChartOutput.delay (compute_data_choice_2 (yearFilter data y)))) ∧
    (get_graph chart (some y) data
        = Except.ok (ChartOutput.performance (compute_data_choice_1 (yearFilter data y)))
      ↔ chart = some "OPT1") := by
  by_cases h : chart = some "OPT1"
  · subst h
    refine ⟨fun hne => absurd rfl hne, ?_, fun _ => rfl⟩
    intro _
    rfl
  · refine ⟨fun _ => by simp [get_graph, h], ?_, fun hc => absurd hc h⟩
    intro heq
    simp [get_graph, h] at heq

/-- C10 (witness): the delay branch at the concrete unset report type with
year 2010 selected. -/
theorem c10_witness :
    ((none : Option String) ≠ some "OPT1") ∧
    get_graph none (some 2010) [c8row1]
      = Except.ok (ChartOutput.delay (compute_data_choice_2 (yearFilter [c8row1] 2010))) :=
  ⟨by simp, (c10_branch [c8row1] 2010 none).1 (by simp)⟩

end AirlineDash
